import Mathlib

/-!
Verification development for the economy / market bot.

Part 1 embeds the balance ledger of `src/economy.py`
(`MongoDB._update_balance_internal`, `MongoDB.transfer_money`,
`MongoDB.check_cooldown`, `MongoDB.set_cooldown`).  Balances are Python
integers, embedded as `Int`.  The stored user document is embedded as
`Account`; the fields the ledger never reads or writes (daily streak,
bar data, timestamps, portfolio) are omitted.

Part 2 embeds the market simulation of `src/market.py`
(`MarketSystem.update_prices`, `calculate_market_sentiment`,
`generate_news_events`' trend computation, the open/close transition of
`MarketCog.manage_market_hours`, and the market-state effect of
`MarketCog.buy_investment`).  Python floats are embedded as `ℚ`; every
`random.*` draw is an explicit input parameter, so theorems quantify over
all possible draws.
-/

/-- One user account document, restricted to the fields read or written by
the balance ledger of `src/economy.py`. -/
structure Account where
  wallet : Int
  wallet_limit : Int
  bank : Int
  bank_limit : Int
  networth : Int
  total_earned : Int
deriving Repr, DecidableEq

/-- Result of `_update_balance_internal`: the stored account after the
`find_one_and_update`, plus the overflow report fields.  In the source the
`_original_*`/`_actual_*` keys are attached to the returned document only
when `overflow_handled` is true; here they are always present and the
`overflow_handled` flag tells whether the source would attach them. -/
structure UpdateResult where
  account : Account
  overflow_handled : Bool
  original_wallet_change : Int
  original_bank_change : Int
  actual_wallet_change : Int
  actual_bank_change : Int
deriving Repr, DecidableEq

/-- Embedding of `MongoDB._update_balance_internal` (src/economy.py lines
436-514), success path: load the account, apply the deltas, redirect wallet
overflow into remaining bank capacity, drop bank overflow at the bank
limit, clamp both balances at zero, store wallet/bank/networth and
conditionally increment `total_earned`.  The two overflow amounts are
computed up front from the naive balances, exactly as in the source. -/
def updateBalanceInternal (user : Account) (wallet_change bank_change : Int) :
    UpdateResult :=
  let new_wallet0 := user.wallet + wallet_change
  let new_bank0 := user.bank + bank_change
  let wallet_overflow := max 0 (new_wallet0 - user.wallet_limit)
  let bank_overflow := max 0 (new_bank0 - user.bank_limit)
  let bank_capacity := user.bank_limit - user.bank
  let actual_bank_transfer := min wallet_overflow bank_capacity
  let new_wallet1 := if 0 < wallet_overflow then user.wallet_limit else new_wallet0
  let new_bank1 := if 0 < wallet_overflow then new_bank0 + actual_bank_transfer else new_bank0
  let actual_wallet_change := if 0 < wallet_overflow then user.wallet_limit - user.wallet else wallet_change
  let actual_bank_change1 := if 0 < wallet_overflow then bank_change + actual_bank_transfer else bank_change
  let new_bank2 := if 0 < bank_overflow then user.bank_limit else new_bank1
  let actual_bank_change := if 0 < bank_overflow then user.bank_limit - user.bank else actual_bank_change1
  let overflow_handled := if 0 < wallet_overflow ∨ 0 < bank_overflow then true else false
  let new_wallet := max 0 new_wallet1
  let new_bank := max 0 new_bank2
  let earn_inc :=
    if (0 < wallet_change ∨ 0 < bank_change) ∧ 0 < wallet_change + bank_change then
      actual_wallet_change + actual_bank_change
    else 0
  { account :=
      { wallet := new_wallet
        wallet_limit := user.wallet_limit
        bank := new_bank
        bank_limit := user.bank_limit
        networth := new_wallet + new_bank
        total_earned := user.total_earned + earn_inc }
    overflow_handled := overflow_handled
    original_wallet_change := wallet_change
    original_bank_change := bank_change
    actual_wallet_change := actual_wallet_change
    actual_bank_change := actual_bank_change }

/-- Validity of a stored account as assumed by the spec's data model:
both balances non-negative and within their limits. -/
def Account.Valid (a : Account) : Prop :=
  0 ≤ a.wallet ∧ a.wallet ≤ a.wallet_limit ∧ 0 ≤ a.bank ∧ a.bank ≤ a.bank_limit

instance (a : Account) : Decidable a.Valid := by
  unfold Account.Valid
  infer_instance

/-- Outcome of one call to `MongoDB.update_balance_atomic` when the single
`find_one_and_update` inside `_update_balance_internal` either succeeds or
raises.  The per-user `asyncio.Lock` is acquired by `update_balance_atomic`
and held for the whole body. -/
inductive AtomicOutcome where
  | committed (res : UpdateResult)
  | raised
  | deadlocked
deriving Repr, DecidableEq

/-- Embedding of `MongoDB.update_balance_atomic` (src/economy.py lines
430-434) with fault injection on the storage write.  On the success path
the body commits `updateBalanceInternal` as a single document update.  If
the write raises, the `except` block of `_update_balance_internal` (lines
516-519) does not re-raise: it calls `self.update_balance`, which is an
alias for `update_balance_atomic`, which then awaits the same non-reentrant
per-user lock that the current task already holds — the call never
completes, so the operation neither commits nor raises. -/
def updateBalanceAtomicRun (storage_error : Bool) (user : Account)
    (wallet_change bank_change : Int) : AtomicOutcome :=
  if storage_error then AtomicOutcome.deadlocked
  else AtomicOutcome.committed (updateBalanceInternal user wallet_change bank_change)

/-- Outcome of one `transfer_money` call: either the coroutine returns a
`(success, actual_amount)` pair, or it never returns; in both cases the two
stored accounts after the call are carried alongside. -/
inductive TransferRun where
  | returned (success : Bool) (actual_amount : Int) (sender receiver : Account)
  | deadlocked (sender receiver : Account)
deriving Repr, DecidableEq

/-- Embedding of `MongoDB.transfer_money` (src/economy.py lines 526-556)
for two distinct users.  A non-positive amount returns `(false, 0)` before
any lock or account access; with both per-user locks held, an uncovered
amount returns `(false, 0)`.  On the success path the code computes the
credited amount capped to the receiver's wallet headroom and then calls
`update_balance_atomic(from_user, -amount)` — which begins by awaiting the
sender's per-user `asyncio.Lock`.  That lock is non-reentrant and already
held by this task (it is one of the two locks acquired at lines 538-539),
so the await never completes: the success path deadlocks before any debit
or credit, neither account is written, and the pair is never returned. -/
def transfer_money (sender receiver : Account) (amount : Int) : TransferRun :=
  if amount ≤ 0 then TransferRun.returned false 0 sender receiver
  else if sender.wallet < amount then TransferRun.returned false 0 sender receiver
  else
    let _transfer_amount :=
      if receiver.wallet_limit < receiver.wallet + amount then
        receiver.wallet_limit - receiver.wallet
      else amount
    TransferRun.deadlocked sender receiver

/-- One stored cooldown record for a `(user_id, command)` key: the
`created_at` timestamp, in seconds. -/
structure CooldownRecord where
  created_at : ℚ
deriving Repr, DecidableEq

/-- Embedding of `MongoDB.set_cooldown` (src/economy.py lines 582-599) on
the record for one `(user_id, command)` key: upsert `created_at := now`. -/
def set_cooldown (now : ℚ) (_store : Option CooldownRecord) : Option CooldownRecord :=
  some { created_at := now }

/-- Embedding of `MongoDB.check_cooldown` (src/economy.py lines 559-580)
on the record for one `(user_id, command)` key: with no record the action
is available (`none`); otherwise the action is available once
`now - created_at` reaches `cooldown_seconds`, and before that the
remaining seconds are returned. -/
def check_cooldown (now : ℚ) (cooldown_seconds : ℚ)
    (store : Option CooldownRecord) : Option ℚ :=
  match store with
  | none => none
  | some c =>
    let time_passed := now - c.created_at
    if time_passed < cooldown_seconds then some (cooldown_seconds - time_passed)
    else none

/-- Account used as the concrete input of the ledger fault theorems:
wallet at its limit, bank one below its limit, all fields valid. -/
def accNearFull : Account :=
  { wallet := 50000, wallet_limit := 50000, bank := 499999, bank_limit := 500000
    networth := 549999, total_earned := 0 }

/-- Account whose bank is exactly full, wallet one below its limit. -/
def accBankFull : Account :=
  { wallet := 49999, wallet_limit := 50000, bank := 500000, bank_limit := 500000
    networth := 549999, total_earned := 100 }

/-- Default fresh account of `_get_default_user`: 100 in the wallet,
empty bank, default limits. -/
def accFresh : Account :=
  { wallet := 100, wallet_limit := 50000, bank := 0, bank_limit := 500000
    networth := 100, total_earned := 0 }

/-- Account ten below its wallet limit with plenty of bank headroom. -/
def accTenBelow : Account :=
  { wallet := 49990, wallet_limit := 50000, bank := 0, bank_limit := 500000
    networth := 49990, total_earned := 0 }

/-! ## Market simulation (src/market.py) -/

/-- Minimum gold price, `MarketConfig.MIN_GOLD_PRICE`. -/
def minGoldPrice : ℚ := 100

/-- Maximum gold price, `MarketConfig.MAX_GOLD_PRICE`. -/
def maxGoldPrice : ℚ := 5000

/-- Lower stock bound ratio, `MarketConfig.STOCK_MIN_RATIO` (0.1). -/
def stockMinRatio : ℚ := 1/10

/-- Upper stock bound ratio, `MarketConfig.STOCK_MAX_RATIO` (10.0). -/
def stockMaxRatio : ℚ := 10

/-- Volatility clamp, `MarketConfig.MAX_VOLATILITY` (0.10). -/
def maxVolatility : ℚ := 1/10

/-- News impact multiplier, `MarketConfig.NEWS_IMPACT_MULTIPLIER` (0.5). -/
def newsImpactMult : ℚ := 1/2

/-- Stock purchase fee, `MarketConfig.STOCK_FEE` (0.5%). -/
def stockFee : ℚ := 5/1000

/-- Gold purchase fee, `MarketConfig.GOLD_FEE` (1%). -/
def goldFee : ℚ := 1/100

/-- Minimum gold purchase, `MarketConfig.MIN_GOLD_PURCHASE` (0.1 oz). -/
def minGoldPurchase : ℚ := 1/10

/-- Kind of a news event, the `type` key of the event dictionaries in
`generate_news_events`. -/
inductive NewsType where
  | positive
  | negative
  | sector
  | gold
deriving Repr, DecidableEq

/-- One news event: its kind, the stock symbol it targets when it is a
sector event (the `sector` key holds a symbol such as "TECH"), and its
signed impact. -/
structure NewsEvent where
  ntype : NewsType
  sector : String
  impact : ℚ
deriving Repr, DecidableEq

/-- Market trend classification, `MarketSystem.market_trend`. -/
inductive Trend where
  | bull
  | bear
  | stable
deriving Repr, DecidableEq

/-- One tradable stock, restricted to the fields read or written by
`update_prices` and the open/close transition (the display-only fields
`name`, `description`, `dividend_yield`, `market_cap`, `pe_ratio` are
omitted). -/
structure Stock where
  symbol : String
  sector : String
  price : ℚ
  previous_price : ℚ
  volatility : ℚ
  volume : Int
  day_high : ℚ
  day_low : ℚ
  base_price : ℚ
deriving Repr, DecidableEq

/-- State of one `MarketSystem` instance, restricted to the fields the
embedded operations read or write.  `last_update` and the news-impact
cache are omitted: the cache `_news_impact_cache` is a pure function of
`news_events`, embedded as `newsImpactOf`. -/
structure MarketState where
  market_open : Bool
  gold_price : ℚ
  gold_volatility : ℚ
  gold_demand : ℚ
  stocks : List Stock
  daily_volume : Int
  inflation_rate : ℚ
  interest_rate : ℚ
  gdp_growth : ℚ
  market_sentiment : ℚ
  market_trend : Trend
  news_events : List NewsEvent
deriving Repr, DecidableEq

/-- Embedding of the `_news_impact_cache` lookup built by
`_precalculate_news_impacts` (src/market.py lines 309-322): the cache
entry for `key` is the sum, over sector events whose `sector` equals `key`
(or over gold events when `key` is "gold"), of `impact *
NEWS_IMPACT_MULTIPLIER`; a missing key reads as 0 via `.get(key, 0)`. -/
def newsImpactOf (events : List NewsEvent) (key : String) : ℚ :=
  (events.filter fun e =>
    match e.ntype with
    | NewsType.sector => e.sector == key
    | NewsType.gold => key == "gold"
    | _ => false).foldl (fun acc e => acc + e.impact * newsImpactMult) 0

/-- Sum of the impacts of the macro (positive/negative) news events, the
loop in `calculate_market_sentiment` lines 345-347. -/
def macroNewsSum (events : List NewsEvent) : ℚ :=
  (events.filter fun e =>
    match e.ntype with
    | NewsType.positive => true
    | NewsType.negative => true
    | _ => false).foldl (fun acc e => acc + e.impact) 0

/-- Embedding of `MarketSystem.calculate_market_sentiment` (src/market.py
lines 324-357).  `rand` is the `random.uniform(-0.2, 0.2)` draw.  Returns
the sentiment, clamped to [-1, 1]; `update_prices` stores it back into the
state. -/
def calculateMarketSentiment (rand : ℚ) (st : MarketState) : ℚ :=
  let s0 := rand
  let s1 := if 3/100 < st.gdp_growth then s0 + 1/10
            else if st.gdp_growth < 2/100 then s0 - 1/10 else s0
  let s2 := if 3/100 < st.inflation_rate then s1 - 15/100
            else if st.inflation_rate < 2/100 then s1 + 5/100 else s1
  let s3 := if 4/100 < st.interest_rate then s2 - 1/10
            else if st.interest_rate < 3/100 then s2 + 5/100 else s2
  let s4 := s3 + macroNewsSum st.news_events
  let s5 := match st.market_trend with
            | Trend.bull => s4 + 1/10
            | Trend.bear => s4 - 1/10
            | Trend.stable => s4
  max (-1) (min 1 s5)

/-- Random draws consumed for one stock during a tick: the
`random.gauss(0, volatility)` movement, the `random.gauss(0, 0.02)`
earnings surprise, and the `random.randint(1000, 10000)` volume
increment. -/
structure StockInput where
  gauss : ℚ
  earnings : ℚ
  volAdd : Int

/-- Random draws consumed by one call of `update_prices`: the sentiment
uniform draw, the gold gauss draw, and the per-symbol stock draws. -/
structure TickInput where
  sentimentRand : ℚ
  goldGauss : ℚ
  stockInputs : String → StockInput

/-- Embedding of `MarketSystem.update_prices` (src/market.py lines
359-418).  Returns the state unchanged when the market is closed.
Otherwise: recompute sentiment; move the gold price by the gauss draw plus
sentiment, demand and cached gold news effects and clamp it to
[`minGoldPrice`, `maxGoldPrice`]; for each stock, move its price by the
gauss draw (at volatility clamped to `maxVolatility`) plus sentiment,
cached sector news and earnings surprise, clamp it to
[`base_price * stockMinRatio`, `base_price * stockMaxRatio`], update the
day high/low and add the synthetic volume; finally recompute the total
daily volume. -/
def update_prices (inp : TickInput) (st : MarketState) : MarketState :=
  if st.market_open then
    let sentiment := calculateMarketSentiment inp.sentimentRand st
    let gold_change := inp.goldGauss + sentiment * (1/100) + st.gold_demand * (5/1000)
      + newsImpactOf st.news_events "gold"
    let gold_price1 := st.gold_price * (1 + gold_change)
    let gold_price2 := max minGoldPrice (min maxGoldPrice gold_price1)
    let stocks1 := st.stocks.map fun stock =>
      let si := inp.stockInputs stock.symbol
      let volatility := min stock.volatility maxVolatility
      let change := si.gauss + sentiment * volatility * 2
        + newsImpactOf st.news_events stock.symbol + si.earnings
      let new_price := stock.price * (1 + change)
      let min_price := stock.base_price * stockMinRatio
      let max_price := stock.base_price * stockMaxRatio
      let price1 := max min_price (min max_price new_price)
      { stock with
        previous_price := stock.price
        price := price1
        day_high := max stock.day_high price1
        day_low := min stock.day_low price1
        volume := stock.volume + si.volAdd }
    { st with
      market_sentiment := sentiment
      gold_price := gold_price2
      stocks := stocks1
      daily_volume := (stocks1.map Stock.volume).foldl (· + ·) 0 }
  else st

/-- Trend classification at the end of `generate_news_events` (src/market.py
lines 300-307): sum of all event impacts, bull above 0.1, bear below
-0.1, stable otherwise. -/
def newsTrend (events : List NewsEvent) : Trend :=
  let total := events.foldl (fun acc e => acc + e.impact) 0
  if 1/10 < total then Trend.bull
  else if total < -(1/10) then Trend.bear
  else Trend.stable

/-- Embedding of the CLOSED → OPEN transition of
`MarketCog.manage_market_hours` (src/market.py lines 487-497): open the
market, install the freshly sampled news events (the random 3-5 event
sample is the `events` argument) with their derived trend, reset each
stock's day high/low to its current price and its volume to zero, and
reset the daily volume. -/
def openMarket (events : List NewsEvent) (st : MarketState) : MarketState :=
  { st with
    market_open := true
    news_events := events
    market_trend := newsTrend events
    stocks := st.stocks.map fun s =>
      { s with day_high := s.price, day_low := s.price, volume := 0 }
    daily_volume := 0 }

/-- One step of the market engine's own schedule: a price tick, the
CLOSED → OPEN transition, or the OPEN → CLOSED flag flip (src/market.py
lines 473-507). -/
inductive MarketStep where
  | tick (inp : TickInput)
  | openEvt (events : List NewsEvent)
  | closeEvt

/-- Apply one market step to the state. -/
def marketStep (s : MarketStep) (st : MarketState) : MarketState :=
  match s with
  | MarketStep.tick inp => update_prices inp st
  | MarketStep.openEvt events => openMarket events st
  | MarketStep.closeEvt => { st with market_open := false }

/-- The five stocks of `MarketSystem.__init__` (src/market.py lines
161-237). -/
def initStocks : List Stock :=
  [ { symbol := "TECH", sector := "Technology", price := 150, previous_price := 150
      volatility := 25/1000, volume := 0, day_high := 150, day_low := 150, base_price := 150 }
  , { symbol := "ENERGY", sector := "Energy", price := 85, previous_price := 85
      volatility := 18/1000, volume := 0, day_high := 85, day_low := 85, base_price := 85 }
  , { symbol := "BANK", sector := "Financial", price := 45, previous_price := 45
      volatility := 15/1000, volume := 0, day_high := 45, day_low := 45, base_price := 45 }
  , { symbol := "PHARMA", sector := "Healthcare", price := 120, previous_price := 120
      volatility := 22/1000, volume := 0, day_high := 120, day_low := 120, base_price := 120 }
  , { symbol := "AUTO", sector := "Automotive", price := 65, previous_price := 65
      volatility := 20/1000, volume := 0, day_high := 65, day_low := 65, base_price := 65 } ]

/-- Initial `MarketSystem` state from `__init__` (src/market.py lines
148-252).  The constructor also draws an initial random news sample; since
that sample is random it is modelled as empty here and every subsequent
sample is supplied by an `openEvt` step (prices are independent of which
news set is installed at start, and the market starts closed). -/
def initMarket : MarketState :=
  { market_open := false
    gold_price := 1850
    gold_volatility := 15/1000
    gold_demand := 0
    stocks := initStocks
    daily_volume := 0
    inflation_rate := 25/1000
    interest_rate := 35/1000
    gdp_growth := 28/1000
    market_sentiment := 0
    market_trend := Trend.stable
    news_events := [] }

/-- Run a sequence of market steps from the initial state. -/
def runMarket (steps : List MarketStep) : MarketState :=
  steps.foldl (fun st s => marketStep s st) initMarket

/-- Outcome of the market-facing part of a stock purchase: the market
state after the command, the bank balance, the holdings in the traded
symbol, and whether the purchase executed. -/
structure StockBuyOutcome where
  market : MarketState
  bank : ℚ
  holdings : Int
  ok : Bool

/-- Embedding of the stock branch of `MarketCog.buy_investment`
(src/market.py lines 736-815), success path after the rate-limiter: reject
when the market is closed, the symbol is unknown, the share count is
non-positive or the bank cannot cover cost plus fee; otherwise debit the
bank by cost plus fee (via `db.update_balance`) and add the shares to the
portfolio.  The market state is carried through to expose exactly which of
its fields the command writes. -/
def buyInvestmentStock (st : MarketState) (bank : ℚ) (holdings : Int)
    (symbol : String) (shares : Int) : StockBuyOutcome :=
  if st.market_open then
    match st.stocks.find? (fun s => s.symbol == symbol) with
    | none => { market := st, bank := bank, holdings := holdings, ok := false }
    | some stock =>
      if shares ≤ 0 then { market := st, bank := bank, holdings := holdings, ok := false }
      else
        let total_cost := stock.price * (shares : ℚ)
        let fee := total_cost * stockFee
        let total_with_fee := total_cost + fee
        if bank < total_with_fee then
          { market := st, bank := bank, holdings := holdings, ok := false }
        else
          { market := st, bank := bank - total_with_fee
            holdings := holdings + shares, ok := true }
  else { market := st, bank := bank, holdings := holdings, ok := false }

/-- Outcome of the market-facing part of a gold purchase. -/
structure GoldBuyOutcome where
  market : MarketState
  bank : ℚ
  gold_ounces : ℚ
  ok : Bool

/-- Embedding of the gold branch of `MarketCog.buy_investment`
(src/market.py lines 817-869), success path after the rate-limiter: reject
when the market is closed, the ounce amount is non-positive or below the
minimum, or the bank cannot cover cost plus fee; otherwise debit the bank
and add the ounces.  As with stocks, the market state is carried through
unchanged by the source. -/
def buyInvestmentGold (st : MarketState) (bank : ℚ) (gold_ounces : ℚ)
    (ounces : ℚ) : GoldBuyOutcome :=
  if st.market_open then
    if ounces ≤ 0 then { market := st, bank := bank, gold_ounces := gold_ounces, ok := false }
    else if ounces < minGoldPurchase then
      { market := st, bank := bank, gold_ounces := gold_ounces, ok := false }
    else
      let total_cost := st.gold_price * ounces
      let fee := total_cost * goldFee
      let total_with_fee := total_cost + fee
      if bank < total_with_fee then
        { market := st, bank := bank, gold_ounces := gold_ounces, ok := false }
      else
        { market := st, bank := bank - total_with_fee
          gold_ounces := gold_ounces + ounces, ok := true }
  else { market := st, bank := bank, gold_ounces := gold_ounces, ok := false }

/-- Market-wide price-bound invariant of the spec: gold within its fixed
bounds, every stock with a non-negative base price and a price within its
base-derived bounds. -/
def MarketInv (st : MarketState) : Prop :=
  minGoldPrice ≤ st.gold_price ∧ st.gold_price ≤ maxGoldPrice ∧
  ∀ s ∈ st.stocks, 0 ≤ s.base_price ∧
    s.base_price * stockMinRatio ≤ s.price ∧ s.price ≤ s.base_price * stockMaxRatio

instance (st : MarketState) : Decidable (MarketInv st) := by
  unfold MarketInv
  infer_instance

/-- A tick input in which every draw is zero, used to instantiate
universally quantified theorems. -/
def tickZero : TickInput :=
  { sentimentRand := 0, goldGauss := 0
    stockInputs := fun _ => { gauss := 0, earnings := 0, volAdd := 0 } }

/-- An open market with a unit of standing gold demand, used as a concrete
input for the gold-demand theorems. -/
def demandMarket : MarketState :=
  { initMarket with market_open := true, gold_demand := 1 }

/-- A freshly opened market with no news, used as a concrete input for the
trade-feedback theorems. -/
def openNoNewsMarket : MarketState :=
  { initMarket with market_open := true }

/-- A concrete pair of market steps: open with no news, then one tick with
all draws at zero. -/
def stepsSample : List MarketStep :=
  [MarketStep.openEvt [], MarketStep.tick tickZero]

/-! ## Theorems -/

/-- C1: the claimed invariant `bank ≤ bank_limit` fails.  On the valid
account with wallet 50000 at its limit and bank 499999 under limit 500000,
`update_balance(+2, +1)` stores bank 500001, one above the bank limit:
the redirection of the wallet overflow uses `bank_limit - bank` as the
remaining capacity, ignoring the positive bank delta already added, and
the bank-overflow check was evaluated before the redirection. -/
theorem update_balance_bank_limit_violation :
    accNearFull.Valid ∧
    (updateBalanceInternal accNearFull 2 1).account.bank_limit = 500000 ∧
    (updateBalanceInternal accNearFull 2 1).account.bank = 500001 ∧
    (updateBalanceInternal accNearFull 2 1).account.bank_limit <
      (updateBalanceInternal accNearFull 2 1).account.bank := by
  decide

/-- C4: `total_earned` is not monotonically non-decreasing.  On the valid
account with wallet 49999 (limit 50000), bank full at 500000, and
`total_earned` 100, `update_balance(+5, -3)` passes the gain guard (the
requested net +2 is positive) but increments `total_earned` by the actual
net of +1 - 3 = -2: the stored `total_earned` drops to 98. -/
theorem total_earned_can_decrease :
    accBankFull.Valid ∧
    accBankFull.total_earned = 100 ∧
    (updateBalanceInternal accBankFull 5 (-3)).account.total_earned = 98 := by
  decide

/-- C5: on a storage error the operation does not raise to the caller.
The `except` block of `_update_balance_internal` swallows the exception
and re-invokes `update_balance` → `update_balance_atomic`, which blocks
on the per-user lock already held by the same task, so the call
deadlocks instead of raising. -/
theorem storage_error_swallowed_not_raised :
    updateBalanceAtomicRun true accFresh 5 0 = AtomicOutcome.deadlocked := rfl

/-- C3: overflow redirection.  For any account with wallet exactly ten
below its limit, non-negative balances and bank headroom of at least 40,
`update_balance(+50, 0)` leaves the wallet at its limit, increases the
bank by exactly 40, and the overflow report carries an actual wallet
delta of 10 with the overflow flag set. -/
theorem wallet_overflow_redirection (a : Account)
    (hw : a.wallet = a.wallet_limit - 10)
    (hw0 : 0 ≤ a.wallet)
    (hb0 : 0 ≤ a.bank)
    (hcap : 40 ≤ a.bank_limit - a.bank) :
    (updateBalanceInternal a 50 0).account.wallet = a.wallet_limit ∧
    (updateBalanceInternal a 50 0).account.bank = a.bank + 40 ∧
    (updateBalanceInternal a 50 0).actual_wallet_change = 10 ∧
    (updateBalanceInternal a 50 0).overflow_handled = true := by
  unfold updateBalanceInternal
  dsimp only
  refine ⟨?_, ?_, ?_, ?_⟩ <;> split_ifs <;> first | rfl | omega

/-- Witness for C3 at the concrete account ten below its wallet limit. -/
theorem wallet_overflow_redirection_witness :
    (accTenBelow.wallet = accTenBelow.wallet_limit - 10 ∧ 0 ≤ accTenBelow.wallet ∧
      0 ≤ accTenBelow.bank ∧ 40 ≤ accTenBelow.bank_limit - accTenBelow.bank) ∧
    ((updateBalanceInternal accTenBelow 50 0).account.wallet = accTenBelow.wallet_limit ∧
      (updateBalanceInternal accTenBelow 50 0).account.bank = accTenBelow.bank + 40 ∧
      (updateBalanceInternal accTenBelow 50 0).actual_wallet_change = 10 ∧
      (updateBalanceInternal accTenBelow 50 0).overflow_handled = true) :=
  ⟨by decide, wallet_overflow_redirection accTenBelow (by decide) (by decide)
    (by decide) (by decide)⟩

/-- C2: the success path of `transfer_money` never returns.  With a sender
wallet of 100 covering the requested amount 100, the call passes both
rejection checks and then re-awaits the sender's already-held non-reentrant
per-user lock inside `update_balance_atomic`: it deadlocks with both
accounts unwritten instead of returning `(true, actual_amount)`. -/
theorem transfer_success_path_deadlocks :
    (100:Int) ≤ accFresh.wallet ∧
    transfer_money accFresh accTenBelow 100 =
      TransferRun.deadlocked accFresh accTenBelow := by
  decide

/-- C10: a transfer of a non-positive amount is rejected with `(false, 0)`
and leaves both accounts exactly as they were. -/
theorem transfer_nonpositive_rejected (s r : Account) (amount : Int)
    (h : amount ≤ 0) :
    transfer_money s r amount = TransferRun.returned false 0 s r := by
  unfold transfer_money
  rw [if_pos h]

/-- Witness for C10 at amount 0. -/
theorem transfer_nonpositive_rejected_witness :
    (0:Int) ≤ 0 ∧
    transfer_money accFresh accTenBelow 0 =
      TransferRun.returned false 0 accFresh accTenBelow :=
  ⟨le_refl 0, transfer_nonpositive_rejected accFresh accTenBelow 0 (le_refl 0)⟩

/-- Clamping a price between a stock's base-derived bounds keeps it within
those bounds when the base price is non-negative. -/
theorem clamp_stock_bounds (base x : ℚ) (hb : 0 ≤ base) :
    base * stockMinRatio ≤ max (base * stockMinRatio) (min (base * stockMaxRatio) x) ∧
    max (base * stockMinRatio) (min (base * stockMaxRatio) x) ≤ base * stockMaxRatio := by
  constructor
  · exact le_max_left _ _
  · refine max_le ?_ (min_le_left _ _)
    have hr : stockMinRatio ≤ stockMaxRatio := by norm_num [stockMinRatio, stockMaxRatio]
    exact mul_le_mul_of_nonneg_left hr hb

/-- One price tick preserves the market price-bound invariant, whatever the
random draws were. -/
theorem update_prices_preserves_inv (inp : TickInput) (st : MarketState)
    (h : MarketInv st) : MarketInv (update_prices inp st) := by
  obtain ⟨hg1, hg2, hs⟩ := h
  unfold update_prices
  dsimp only
  split
  · refine ⟨le_max_left _ _, max_le (by norm_num [minGoldPrice, maxGoldPrice]) (min_le_left _ _), ?_⟩
    intro s' hs'
    dsimp only at hs'
    obtain ⟨s, hsmem, rfl⟩ := List.mem_map.mp hs'
    obtain ⟨hb, _, _⟩ := hs s hsmem
    dsimp only
    exact ⟨hb, (clamp_stock_bounds s.base_price _ hb).1, (clamp_stock_bounds s.base_price _ hb).2⟩
  · exact ⟨hg1, hg2, hs⟩

/-- The market-open transition preserves the price-bound invariant: it
resets only the day statistics and the news, not prices or base prices. -/
theorem openMarket_preserves_inv (events : List NewsEvent) (st : MarketState)
    (h : MarketInv st) : MarketInv (openMarket events st) := by
  obtain ⟨hg1, hg2, hs⟩ := h
  refine ⟨hg1, hg2, ?_⟩
  intro s' hs'
  unfold openMarket at hs'
  dsimp only at hs'
  obtain ⟨s, hsmem, rfl⟩ := List.mem_map.mp hs'
  simpa using hs s hsmem

/-- Every market step preserves the price-bound invariant. -/
theorem marketStep_preserves_inv (s : MarketStep) (st : MarketState)
    (h : MarketInv st) : MarketInv (marketStep s st) := by
  cases s with
  | tick inp => exact update_prices_preserves_inv inp st h
  | openEvt events => exact openMarket_preserves_inv events st h
  | closeEvt => exact ⟨h.1, h.2.1, h.2.2⟩

/-- The price-bound invariant holds along any run of market steps from an
invariant-satisfying state. -/
theorem foldl_marketStep_inv (steps : List MarketStep) (st : MarketState)
    (h : MarketInv st) :
    MarketInv (steps.foldl (fun st s => marketStep s st) st) := by
  induction steps generalizing st with
  | nil => exact h
  | cons a l ih => exact ih _ (marketStep_preserves_inv a st h)

/-- The initial market state satisfies the price-bound invariant. -/
theorem initMarket_inv : MarketInv initMarket := by
  refine ⟨by norm_num [minGoldPrice, initMarket], by norm_num [maxGoldPrice, initMarket], ?_⟩
  intro s hs
  simp only [initMarket, initStocks, List.mem_cons, List.not_mem_nil, or_false] at hs
  rcases hs with h | h | h | h | h <;> subst h <;>
    norm_num [stockMinRatio, stockMaxRatio]

/-- C6: after any number of market steps (ticks, opens, closes) with any
random draws and any sampled news, the gold price stays within
[`minGoldPrice`, `maxGoldPrice`] and every stock's price stays within
[`base_price * stockMinRatio`, `base_price * stockMaxRatio`]. -/
theorem market_price_bounds (steps : List MarketStep) :
    (minGoldPrice ≤ (runMarket steps).gold_price ∧
      (runMarket steps).gold_price ≤ maxGoldPrice) ∧
    ∀ s ∈ (runMarket steps).stocks,
      s.base_price * stockMinRatio ≤ s.price ∧
        s.price ≤ s.base_price * stockMaxRatio := by
  have h : MarketInv (runMarket steps) :=
    foldl_marketStep_inv steps initMarket initMarket_inv
  exact ⟨⟨h.1, h.2.1⟩, fun s hs => ⟨(h.2.2 s hs).2.1, (h.2.2 s hs).2.2⟩⟩

/-- Witness for C6 on a concrete run: open the market, then one tick with
all draws at zero. -/
theorem market_price_bounds_witness :
    minGoldPrice ≤ (runMarket stepsSample).gold_price ∧
    (runMarket stepsSample).gold_price ≤ maxGoldPrice :=
  (market_price_bounds stepsSample).1

/-- C7 counterexample: on an open market with standing gold demand 1, a
tick leaves `gold_demand` exactly at 1 — no decay factor is applied, so the
demand does not move strictly toward zero. -/
theorem gold_demand_decay_cex :
    demandMarket.market_open = true ∧
    demandMarket.gold_demand = 1 ∧
    (update_prices tickZero demandMarket).gold_demand = 1 :=
  ⟨rfl, rfl, rfl⟩

/-- C7 amended: a price tick reads `gold_demand` (it contributes
`gold_demand * 0.005` to the gold price change) but never writes it: the
demand after any tick equals the demand before it. -/
theorem gold_demand_unchanged_by_tick (inp : TickInput) (st : MarketState) :
    (update_prices inp st).gold_demand = st.gold_demand := by
  unfold update_prices
  split <;> rfl

/-- C8 counterexample: on an open market, a stock purchase of 10 TECH
shares and a gold purchase of 5 ounces both execute (`ok = true`) yet
leave the market state — including every stock's `volume` and the
`gold_demand` — exactly unchanged. -/
theorem trade_feedback_cex :
    (buyInvestmentStock openNoNewsMarket 1000000 0 "TECH" 10).ok = true ∧
    (buyInvestmentStock openNoNewsMarket 1000000 0 "TECH" 10).market = openNoNewsMarket ∧
    (buyInvestmentGold openNoNewsMarket 1000000 0 5).ok = true ∧
    (buyInvestmentGold openNoNewsMarket 1000000 0 5).market = openNoNewsMarket := by
  have hopen : openNoNewsMarket.market_open = true := rfl
  have hfind : openNoNewsMarket.stocks.find? (fun s => s.symbol == "TECH") =
      some { symbol := "TECH", sector := "Technology", price := 150, previous_price := 150
             volatility := 25/1000, volume := 0, day_high := 150, day_low := 150
             base_price := 150 } := rfl
  refine ⟨?_, ?_, ?_, ?_⟩
  · unfold buyInvestmentStock
    rw [if_pos hopen, hfind]
    dsimp only
    rw [if_neg (by norm_num), if_neg (by norm_num [stockFee])]
  · unfold buyInvestmentStock
    rw [if_pos hopen, hfind]
    dsimp only
    rw [if_neg (by norm_num), if_neg (by norm_num [stockFee])]
  · unfold buyInvestmentGold
    rw [if_pos hopen]
    dsimp only
    rw [if_neg (by norm_num), if_neg (by norm_num [minGoldPurchase]),
      if_neg (by norm_num [openNoNewsMarket, initMarket, goldFee])]
  · unfold buyInvestmentGold
    rw [if_pos hopen]
    dsimp only
    rw [if_neg (by norm_num), if_neg (by norm_num [minGoldPurchase]),
      if_neg (by norm_num [openNoNewsMarket, initMarket, goldFee])]

/-- C8 amended: trade execution does not feed back into the market state.
Both purchase branches of `buy_investment` return the market state exactly
as given — neither a stock's `volume` nor the `gold_demand` is nudged by a
trade; stock volume changes only through the synthetic random increment of
`update_prices` and the reset on market open. -/
theorem buy_leaves_market_unchanged :
    (∀ (st : MarketState) (bank : ℚ) (holdings : Int) (symbol : String) (shares : Int),
      (buyInvestmentStock st bank holdings symbol shares).market = st) ∧
    (∀ (st : MarketState) (bank gold_ounces ounces : ℚ),
      (buyInvestmentGold st bank gold_ounces ounces).market = st) := by
  constructor
  · intro st bank holdings symbol shares
    unfold buyInvestmentStock
    split
    · split
      · rfl
      · split
        · rfl
        · dsimp only
          split <;> rfl
    · rfl
  · intro st bank gold_ounces ounces
    unfold buyInvestmentGold
    split
    · split
      · rfl
      · split
        · rfl
        · dsimp only
          split <;> rfl
    · rfl

/-- C9: setting a cooldown and checking it immediately with a 3600-second
window reports exactly 3600 seconds remaining; checking once at least 3600
seconds have elapsed reports the action as available (`none`). -/
theorem cooldown_roundtrip (t e : ℚ) :
    check_cooldown t 3600 (set_cooldown t none) = some 3600 ∧
    (3600 ≤ e → check_cooldown (t + e) 3600 (set_cooldown t none) = none) := by
  unfold check_cooldown set_cooldown
  dsimp only
  constructor
  · rw [if_pos (by linarith)]
    rw [show (3600:ℚ) - (t - t) = 3600 by ring]
  · intro hge
    rw [if_neg (by linarith)]

/-- Witness for C9 at `t = 0`, elapsed 3600. -/
theorem cooldown_roundtrip_witness :
    check_cooldown 0 3600 (set_cooldown 0 none) = some 3600 ∧
    ((3600:ℚ) ≤ 3600 ∧ check_cooldown (0 + 3600) 3600 (set_cooldown 0 none) = none) :=
  ⟨(cooldown_roundtrip 0 3600).1, le_refl 3600, (cooldown_roundtrip 0 3600).2 (le_refl 3600)⟩
